import Mathlib

/-!
Verification of `src/app.py` of the vinyl-reporter repository: a shallow
embedding in Lean 4 of the collection cache, the Discogs collection
adapter, the LLM analysis orchestration, the report routes and the SSE
progress stream, together with theorems settling the specification's
claims about them.

Conventions of the embedding:
* Python dicts keyed by strings are modelled as functions `String → Option _`.
* `time.time()` timestamps are modelled as integers (seconds).
* Python exceptions are modelled by the `Exc` type; a `try/except` block
  becomes a `match` on an `Except Exc _` value.
* Effectful calls to external services (Discogs client, OpenAI) are inputs
  of the embedded functions: a `FetchWorld` record for the Discogs client,
  an oracle `llm : String → Except Exc LlmJson` for `_call_llm`.
-/

namespace VinylReporter

/-- `', '.join(xs)` -/
def commaJoin (xs : List String) : String := String.intercalate ", " xs

/-- An album record as built by `fetch_collection_from_discogs`
(src/app.py lines 148-155): exactly six string fields. -/
structure Album where
  artist : String
  album : String
  label : String
  year : String
  genre : String
  format : String
deriving Repr, DecidableEq

/-- One element of a release's `formats` list: the code keeps only entries
that are dicts (`isinstance(f, dict)`) and reads `f.get('name', '')`. -/
inductive FormatEntry where
  | dict (name : String)
  | notDict
deriving Repr, DecidableEq

/-- The fields of `item.release.data` that the loop body of
`fetch_collection_from_discogs` reads. `year` is `none` when the key is
absent; Discogs uses the integer `0` for an unknown year, and Python's
truthiness test `if data.get('year')` treats `0` like an absent key. -/
structure ReleaseData where
  artists : List String
  title : String
  year : Option Nat
  genres : List String
  styles : List String
  labels : List String
  formats : List FormatEntry
deriving Repr, DecidableEq

/-- The loop body of `fetch_collection_from_discogs` (src/app.py lines
130-155): build one `album_info` dict from a release's data. -/
def albumOfRelease (d : ReleaseData) : Album :=
  let artist_name := if d.artists = [] then "Unknown Artist" else commaJoin d.artists
  let genre := commaJoin d.genres
  let style := commaJoin d.styles
  let label_name := commaJoin d.labels
  let formats := d.formats.filterMap (fun f => match f with
    | .dict name => some name
    | .notDict => none)
  let format_str := commaJoin (formats.filter (fun f => f ≠ ""))
  { artist := artist_name
    album := d.title
    label := label_name
    year := match d.year with
      | some y => if y ≠ 0 then toString y else ""
      | none => ""
    genre := if genre = "" then style else genre
    format := format_str }

/-! ### Collection cache (src/app.py lines 21-98) -/

/-- `COLLECTION_CACHE_TTL = 600` seconds. -/
def COLLECTION_CACHE_TTL : Int := 600

/-- One cache entry: `{'data': [...], 'timestamp': float}`. -/
structure CacheEntry where
  data : List Album
  timestamp : Int
deriving Repr, DecidableEq

/-- A username-keyed cache dict (in-memory `collection_cache` or the parsed
on-disk JSON file). -/
def CacheMap : Type := String → Option CacheEntry

/-- Pointwise update of a cache dict. -/
def CacheMap.set (m : CacheMap) (u : String) (e : CacheEntry) : CacheMap :=
  fun k => if k = u then some e else m k

/-- `get_cached_collection(username)` (src/app.py lines 79-90): check the
in-memory dict first, fall back to the on-disk cache file and promote a
hit to memory, then return the data iff the found entry is fresh.
Returns the result together with the updated in-memory dict. -/
def get_cached_collection (mem disk : CacheMap) (now : Int) (username : String) :
    Option (List Album) × CacheMap :=
  let found : Option CacheEntry × CacheMap :=
    match mem username with
    | some e => (some e, mem)
    | none =>
      match disk username with
      | some e => (some e, mem.set username e)
      | none => (none, mem)
  match found.1 with
  | some e =>
    if now - e.timestamp < COLLECTION_CACHE_TTL then (some e.data, found.2)
    else (none, found.2)
  | none => (none, found.2)

/-- `set_cached_collection(username, data)` (src/app.py lines 92-98): store
the entry with the current timestamp in memory and in the disk file. -/
def set_cached_collection (mem disk : CacheMap) (now : Int) (username : String)
    (data : List Album) : CacheMap × CacheMap :=
  let entry : CacheEntry := { data := data, timestamp := now }
  (mem.set username entry, disk.set username entry)

/-- The name carried by a formats entry, when it is a dict. -/
def FormatEntry.nameOf : FormatEntry → Option String
  | .dict name => some name
  | .notDict => none

/-- A sample album, used by concrete witnesses. -/
def albumEx : Album :=
  { artist := "Alice Coltrane", album := "Journey in Satchidananda"
    label := "Impulse!", year := "1971", genre := "Jazz", format := "Vinyl" }

/-- A sample release, used by concrete witnesses. -/
def releaseEx : ReleaseData :=
  { artists := ["Miles Davis", "Gil Evans"], title := "Sketches of Spain"
    year := some 1960, genres := ["Jazz"], styles := ["Modal"]
    labels := ["Columbia"], formats := [.dict "Vinyl", .notDict, .dict ""] }

/-- A release whose Discogs year field is the integer 0 ("unknown year"). -/
def releaseYearZero : ReleaseData :=
  { artists := ["Unknown"], title := "Bootleg", year := some 0
    genres := [], styles := [], labels := [], formats := [] }

/-! ### Analysis engine (src/app.py lines 169-277) -/

/-- `MAX_COLLECTION_SIZE = 500` (src/app.py line 169). -/
def MAX_COLLECTION_SIZE : Nat := 500

/-- One summary line of the collection text (src/app.py lines 176-181):
`artist - album`, then ` (year)` when the year string is nonempty, then
` [genre]` when the genre string is nonempty. -/
def summaryLine (item : Album) : String :=
  let s := item.artist ++ " - " ++ item.album
  let s := if item.year ≠ "" then s ++ " (" ++ item.year ++ ")" else s
  if item.genre ≠ "" then s ++ " [" ++ item.genre ++ "]" else s

/-- `_build_collection_text(collection_data)` (src/app.py lines 171-182):
truncate to `MAX_COLLECTION_SIZE`, render one line per album, and return
the joined text together with the number of albums analyzed. -/
def _build_collection_text (collection_data : List Album) : String × Nat :=
  let albums_to_analyze := collection_data.take MAX_COLLECTION_SIZE
  (String.intercalate "\n" (albums_to_analyze.map summaryLine),
   albums_to_analyze.length)

/-- A Python exception value, as far as the app inspects one: its class
(`ValueError` vs anything else) and its `str(e)` rendering. A `KeyError`
renders with quotes around the missing key, as Python does. -/
inductive Exc where
  | valueError (msg : String)
  | keyError (key : String)
  | other (msg : String)
deriving Repr, DecidableEq

/-- `str(e)` for an exception. -/
def Exc.str : Exc → String
  | .valueError msg => msg
  | .keyError key => "\x27" ++ key ++ "\x27"
  | .other msg => msg

/-- One growth area of the growth call's parsed JSON. -/
structure GrowthArea where
  title : String
  description : String
  recommendations : List String
deriving Repr, DecidableEq

/-- The parsed JSON object returned by one `_call_llm` call: each key the
app later reads may be present or absent (a missing key raises `KeyError`
on access). -/
structure LlmJson where
  vibe_summary : Option String
  strengths : Option String
  taste_recommendations : Option (List String)
  growth_areas : Option (List GrowthArea)
deriving Repr, DecidableEq

/-- Dict lookup `obj[key]`: the value when the key is present, `KeyError`
otherwise. -/
def getKey {α : Type} (v : Option α) (key : String) : Except Exc α :=
  match v with
  | some x => .ok x
  | none => .error (.keyError key)

/-- The merged analysis dict built at src/app.py lines 270-275. The
`growth_areas` field is an `Option` because the session may still hold an
old-format analysis dict lacking that key (checked at src/app.py line 592);
every dict built by `analyze_collection_with_llm` has it. -/
structure AnalysisDict where
  vibe_summary : String
  strengths : String
  taste_recommendations : List String
  growth_areas : Option (List GrowthArea)
deriving Repr, DecidableEq

/-- The overview prompt f-string (src/app.py lines 204-230). -/
def overview_prompt (collection_text : String) (num_analyzed : Nat) : String :=
  "You are a music collection analyst. Analyze the following record collection.\n\nCollection ("
  ++ toString num_analyzed ++ " albums):\n" ++ collection_text ++
  "\n\nPlease provide a JSON response with the following structure:\n\x7b\n    \"vibe_summary\": \"One paragraph describing the collection\x27s overall vibe and point of view\",\n    \"strengths\": \"One paragraph describing the strengths of this collection\",\n    \"taste_recommendations\": [\n        \"Album 1 - Artist 1\",\n        \"Album 2 - Artist 2\",\n        \"Album 3 - Artist 3\",\n        \"Album 4 - Artist 4\",\n        \"Album 5 - Artist 5\"\n    ]\n\x7d\n\nINSTRUCTIONS:\n- \"vibe_summary\": Describe the overall personality and point of view of this collection.\n- \"strengths\": What this collection does well.\n- \"taste_recommendations\": 5 albums the collector would LOVE based on their existing tastes. These should feel like natural extensions of what they already enjoy — not gap-filling or improvement-focused.\n\nCRITICAL — RECOMMENDATION EXCLUSION RULE (DO NOT VIOLATE):\nEvery recommended album MUST NOT already appear in the collection listed above. Before finalizing your response, cross-check EVERY recommendation against the full collection list. If an album or artist/album pair is already in the collection, replace it with a different one. Recommending an album the user already owns destroys trust and is the single worst mistake you can make.\n\nBe specific and insightful. Reference specific artists, genres, or eras when relevant."

/-- The growth prompt f-string (src/app.py lines 232-261). -/
def growth_prompt (collection_text : String) (num_analyzed : Nat) : String :=
  "You are a music collection analyst. Analyze the following record collection and suggest growth areas.\n\nCollection ("
  ++ toString num_analyzed ++ " albums):\n" ++ collection_text ++
  "\n\nPlease provide a JSON response with the following structure:\n\x7b\n    \"growth_areas\": [\n        \x7b\n            \"title\": \"2-5 word title\",\n            \"description\": \"A paragraph explaining this area and why exploring it would enrich the collection\",\n            \"recommendations\": [\n                \"Album - Artist\",\n                \"Album - Artist\",\n                \"Album - Artist\"\n            ]\n        \x7d\n    ]\n\x7d\n\nINSTRUCTIONS:\n- \"growth_areas\": Exactly 3 or 4 areas where the collection could expand. Each must have:\n  - A short title (2-5 words)\n  - A description paragraph explaining the area and why it would enrich the collection\n  - Exactly 3 album recommendations for that area\n\nCRITICAL — RECOMMENDATION EXCLUSION RULE (DO NOT VIOLATE):\nEvery recommended album MUST NOT already appear in the collection listed above. Before finalizing your response, cross-check EVERY recommendation against the full collection list. If an album or artist/album pair is already in the collection, replace it with a different one. Recommending an album the user already owns destroys trust and is the single worst mistake you can make. All recommendations must be unique (no duplicates).\n\nBe specific and insightful. Reference specific artists, genres, or eras when relevant."

/-- `analyze_collection_with_llm(collection_data)` (src/app.py lines
200-277). `_call_llm` is abstracted as an oracle
`llm : String → Except Exc LlmJson` (the HTTP call plus `json.loads`, which
may raise). The `ThreadPoolExecutor(max_workers=2)` block submits the two
prompts as independent futures — `_call_llm` touches no shared state — and
awaits `overview_future.result()` first, then `growth_future.result()`;
the merged dict takes `vibe_summary`, `strengths` and
`taste_recommendations` from the overview result and `growth_areas` from
the growth result. Any exception in the block becomes
`ValueError("Error calling LLM: " + str(e))`. -/
def analyze_collection_with_llm (llm : String → Except Exc LlmJson)
    (collection_data : List Album) : Except Exc AnalysisDict :=
  let bt := _build_collection_text collection_data
  let overview_future := llm (overview_prompt bt.1 bt.2)
  let growth_future := llm (growth_prompt bt.1 bt.2)
  match
    (do
      let overview ← overview_future
      let growth ← growth_future
      let vibe ← getKey overview.vibe_summary "vibe_summary"
      let strengths ← getKey overview.strengths "strengths"
      let taste ← getKey overview.taste_recommendations "taste_recommendations"
      let ga ← getKey growth.growth_areas "growth_areas"
      pure { vibe_summary := vibe, strengths := strengths,
             taste_recommendations := taste, growth_areas := some ga } :
      Except Exc AnalysisDict)
  with
  | .ok a => .ok a
  | .error e => .error (.valueError ("Error calling LLM: " ++ e.str))

/-- The sequential reference version of the analysis, following the spec's
words for the refinement claim: call `_call_llm` on the overview prompt,
then on the growth prompt, then merge the two parsed results. -/
def analyze_sequential (llm : String → Except Exc LlmJson)
    (collection_data : List Album) : Except Exc AnalysisDict :=
  let bt := _build_collection_text collection_data
  match
    (do
      let overview ← llm (overview_prompt bt.1 bt.2)
      let growth ← llm (growth_prompt bt.1 bt.2)
      let vibe ← getKey overview.vibe_summary "vibe_summary"
      let strengths ← getKey overview.strengths "strengths"
      let taste ← getKey overview.taste_recommendations "taste_recommendations"
      let ga ← getKey growth.growth_areas "growth_areas"
      pure { vibe_summary := vibe, strengths := strengths,
             taste_recommendations := taste, growth_areas := some ga } :
      Except Exc AnalysisDict)
  with
  | .ok a => .ok a
  | .error e => .error (.valueError ("Error calling LLM: " ++ e.str))

/-- A sample parsed LLM response with every key present, used by witnesses. -/
def jsonEx : LlmJson :=
  { vibe_summary := some "Warm spiritual jazz with modal leanings"
    strengths := some "Deep catalogue of classic Impulse! records"
    taste_recommendations := some ["Karma - Pharoah Sanders"]
    growth_areas := some [{ title := "Dub foundations"
                            description := "Roots and dub would widen the low end"
                            recommendations := ["Super Ape - Lee Perry"] }] }

/-! ### Discogs collection adapter (src/app.py lines 100-167) -/

/-- The behaviour of the external Discogs client during one
`fetch_collection_from_discogs` run: the outcome of `client.identity()`,
of accessing `user.collection_folders` (its count), and of iterating
folder 0's releases. A `.error` carries `str(e)` of the raised exception;
a `none` release item is one whose per-item body raised (and was skipped
by the `continue` at src/app.py line 159). -/
structure FetchWorld where
  identity : Except String String
  folders : Except String Nat
  releases : Except String (List (Option ReleaseData))

/-- The body of the outer `try` of `fetch_collection_from_discogs`
(src/app.py lines 103-164), returning the collection and username plus the
updated in-memory and on-disk caches. -/
def fetch_body (w : FetchWorld) (mem disk : CacheMap) (now : Int) :
    Except String ((List Album × String) × (CacheMap × CacheMap)) :=
  match w.identity with
  | .error e => .error e
  | .ok username =>
    let gc := get_cached_collection mem disk now username
    match gc.1 with
    | some cached => .ok ((cached, username), (gc.2, disk))
    | none =>
      match w.folders with
      | .error e => .error ("Could not access collection folders: " ++ e)
      | .ok nf =>
        if nf = 0 then .ok (([], username), (gc.2, disk))
        else
          match w.releases with
          | .error e => .error e
          | .ok items =>
            let collection_data := (items.filterMap id).map albumOfRelease
            if collection_data = [] then
              .ok ((collection_data, username), (gc.2, disk))
            else
              let sc := set_cached_collection gc.2 disk now username collection_data
              .ok ((collection_data, username), sc)

/-- `fetch_collection_from_discogs()` (src/app.py lines 100-167): run the
body and wrap any exception into
`ValueError("Error fetching collection from Discogs: " + str(e))`. -/
def fetch_collection_from_discogs (w : FetchWorld) (mem disk : CacheMap) (now : Int) :
    Except Exc ((List Album × String) × (CacheMap × CacheMap)) :=
  match fetch_body w mem disk now with
  | .ok r => .ok r
  | .error e => .error (.valueError ("Error fetching collection from Discogs: " ++ e))

/-- An external effect of the release-iteration loop. -/
inductive FetchEffect where
  | apiRequest
  | sleep
deriving Repr, DecidableEq

/-- The sequence of external effects performed while iterating folder 0's
releases (src/app.py lines 126-159): each iteration reads
`item.release.data` — one paginated Discogs API request — and the loop body
contains no `time.sleep` call (`time` is only used for cache timestamps at
lines 88, 94 and 306). -/
def fetchLoopEffects (items : List (Option ReleaseData)) : List FetchEffect :=
  items.map (fun _ => .apiRequest)

/-! ### The /generate-report route (src/app.py lines 396-429) -/

/-- The JSON response of `/generate-report`: an error body with its HTTP
status, or the success body carrying the analysis and collection size. -/
inductive ReportResponse where
  | errorResp (status : Nat) (message : String)
  | success (analysis : AnalysisDict) (collection_size : Nat)
deriving Repr, DecidableEq

/-- The oversize error message (src/app.py lines 411-413 and 465, 540). -/
def oversizeMsg (n : Nat) : String :=
  "Your collection has " ++ toString n ++ " albums. Collections over "
  ++ toString MAX_COLLECTION_SIZE ++ " albums are not currently supported."

/-- The `except` clauses of `generate_report` (src/app.py lines 426-429):
a `ValueError` becomes HTTP 400 with its message, any other exception
becomes HTTP 500 with an `Unexpected error:` message. -/
def report_exc_handler (e : Exc) : ReportResponse :=
  match e with
  | .valueError m => .errorResp 400 m
  | e => .errorResp 500 ("Unexpected error: " ++ e.str)

/-- `generate_report()` (src/app.py lines 396-429): require auth, fetch the
collection, reject an empty or oversize collection with HTTP 400, run the
analysis, and route any exception raised along the way (by the fetch or by
the analysis) through `report_exc_handler`. `auth` is the session check of
line 399. -/
def generate_report (auth : Bool) (w : FetchWorld)
    (llm : String → Except Exc LlmJson) (mem disk : CacheMap) (now : Int) :
    ReportResponse :=
  if ¬ auth then .errorResp 401 "Not authenticated with Discogs"
  else
    match fetch_collection_from_discogs w mem disk now with
    | .error e => report_exc_handler e
    | .ok ((collection_data, _username), _caches) =>
      if collection_data = [] then
        .errorResp 400 "No collection data found. Your Discogs collection appears to be empty, or there was an issue accessing it."
      else if collection_data.length > MAX_COLLECTION_SIZE then
        .errorResp 400 (oversizeMsg collection_data.length)
      else
        match analyze_collection_with_llm llm collection_data with
        | .error e => report_exc_handler e
        | .ok analysis => .success analysis collection_data.length

/-! ### SSE progress stream (src/app.py lines 431-570) -/

/-- An event yielded by the `event_stream` generator: the three frame
builders `send_status`, `send_error` and `send_complete`
(src/app.py lines 435-444) are its only constructors. -/
inductive SseEvent where
  | status (step message : String)
  | errorMsg (message : String)
  | complete
deriving Repr, DecidableEq

/-- The event name written on the `event:` line of a frame: `send_status`
writes `status`, `send_error` writes `error_msg`, `send_complete` writes
`complete`. -/
def SseEvent.name : SseEvent → String
  | .status _ _ => "status"
  | .errorMsg _ => "error_msg"
  | .complete => "complete"

/-- The `n`-th lowercase hex digit: `0`-`9` for `n < 10`, `a`-`f` for
`10 ≤ n < 16`. -/
def hexDigit (n : Nat) : Char :=
  if n < 10 then Char.ofNat (48 + n)
  else if n < 16 then Char.ofNat (87 + n)
  else Char.ofNat 48

/-- Model of how `json.dumps` escapes one character inside a JSON string
value: backslash, quote, newline, carriage return and tab get two-character
escapes, other ASCII control characters get a `\u00XX` escape, everything
else passes through. -/
def jsonEscapeChar (c : Char) : String :=
  if c = '\\' then "\\\\"
  else if c = '"' then "\\\""
  else if c = '\n' then "\\n"
  else if c = '\r' then "\\r"
  else if c = '\t' then "\\t"
  else if c.toNat < 32 then
    "\\u00" ++ String.singleton (hexDigit (c.toNat / 16))
    ++ String.singleton (hexDigit (c.toNat % 16))
  else String.singleton c

/-- Escape every character of a list in order. -/
def escapeChars : List Char → String
  | [] => ""
  | c :: rest => jsonEscapeChar c ++ escapeChars rest

/-- Model of `json.dumps` applied to a string value. -/
def jsonString (s : String) : String := "\"" ++ escapeChars s.data ++ "\""

/-- `json.dumps({'step': step, 'message': message})` (src/app.py line 436). -/
def jsonDumpsStatus (step message : String) : String :=
  "\x7b" ++ jsonString "step" ++ ": " ++ jsonString step ++ ", "
  ++ jsonString "message" ++ ": " ++ jsonString message ++ "\x7d"

/-- `json.dumps({'message': message})` (src/app.py line 440). -/
def jsonDumpsError (message : String) : String :=
  "\x7b" ++ jsonString "message" ++ ": " ++ jsonString message ++ "\x7d"

/-- The `data:` payload of a frame: `send_complete` hard-codes `\x7b\x7d`. -/
def SseEvent.payload : SseEvent → String
  | .status step message => jsonDumpsStatus step message
  | .errorMsg message => jsonDumpsError message
  | .complete => "\x7b\x7d"

/-- The full SSE frame string yielded for an event
(src/app.py lines 435-444): an `event:` line, a `data:` line, and a blank
line. -/
def sseFrame (e : SseEvent) : String :=
  "event: " ++ e.name ++ "\ndata: " ++ e.payload ++ "\n\n"

/-- The cookie-backed Flask session fields the app reads and writes. -/
structure SessionState where
  discogs_token : Option String
  discogs_token_secret : Option String
  analysis : Option AnalysisDict
  collection_size : Option Nat

/-- The server-side `pending_analysis` dict (src/app.py line 30), keyed by
the session's Discogs token (or `anon`). -/
structure PendingEntry where
  analysis : AnalysisDict
  collection_size : Nat
deriving Repr, DecidableEq

/-- The `pending_analysis` store as a map. -/
def PendingMap : Type := String → Option PendingEntry

/-- The release-iteration loop of the streaming fetch
(src/app.py lines 489-533): skip items whose body raised, build the album
records, and yield a `step-fetch` status event after every tenth album. -/
def streamFetchLoop : List (Option ReleaseData) → Nat → List Album →
    List SseEvent × List Album
  | [], _, acc => ([], acc)
  | none :: rest, album_count, acc => streamFetchLoop rest album_count acc
  | some d :: rest, album_count, acc =>
    let album_count := album_count + 1
    let evs := if album_count % 10 = 0 then
        [SseEvent.status "step-fetch"
          ("Fetching collection... " ++ toString album_count ++ " albums found")]
      else []
    let r := streamFetchLoop rest album_count (acc ++ [albumOfRelease d])
    (evs ++ r.1, r.2)

/-- Steps 3 and 4 of the generator (src/app.py lines 550-567): run the LLM
analysis, then stash the result in `pending_analysis` keyed by
`session.get('discogs_token', 'anon')` and yield `step-done` plus
`complete`; on an analysis exception yield an error event. -/
def streamFinish (llm : String → Except Exc LlmJson) (sess : SessionState)
    (pending : PendingMap) (mem disk : CacheMap) (evs : List SseEvent)
    (collection_data : List Album) :
    List SseEvent × PendingMap × CacheMap × CacheMap :=
  match analyze_collection_with_llm llm collection_data with
  | .error e =>
    (evs ++ [.errorMsg ("Error during analysis: " ++ e.str)], pending, mem, disk)
  | .ok analysis =>
    let sid := sess.discogs_token.getD "anon"
    let pending1 : PendingMap := fun k =>
      if k = sid then some { analysis := analysis,
                             collection_size := collection_data.length }
      else pending k
    (evs ++ [.status "step-done" "Building your report...", .complete],
     pending1, mem, disk)

/-- The `event_stream` generator of `/generate-report-stream`
(src/app.py lines 434-567), as the list of events it yields together with
the updated `pending_analysis` store and caches. `w` carries the Discogs
client's behaviour and the LLM oracle. -/
def event_stream (w : FetchWorld) (llm : String → Except Exc LlmJson)
    (sess : SessionState) (mem disk : CacheMap) (now : Int)
    (pending : PendingMap) : List SseEvent × PendingMap × CacheMap × CacheMap :=
  let ev1 := SseEvent.status "step-connect" "Connecting to Discogs..."
  if ¬ (sess.discogs_token.isSome ∧ sess.discogs_token_secret.isSome) then
    ([ev1] ++ [.errorMsg "Not authenticated with Discogs. Please log in again."],
     pending, mem, disk)
  else
    match w.identity with
    | .error e =>
      ([ev1] ++ [.errorMsg ("Failed to connect to Discogs: " ++ e)],
       pending, mem, disk)
    | .ok username =>
      let gc := get_cached_collection mem disk now username
      match gc.1 with
      | some collection_data =>
        if collection_data.length > MAX_COLLECTION_SIZE then
          ([ev1] ++ [.errorMsg (oversizeMsg collection_data.length)],
           pending, gc.2, disk)
        else
          streamFinish llm sess pending gc.2 disk
            [ev1,
             .status "step-fetch" ("Using cached collection ("
               ++ toString collection_data.length ++ " albums)"),
             .status "step-analyze" ("Analyzing "
               ++ toString collection_data.length ++ " albums with AI...")]
            collection_data
      | none =>
        let evs0 := [ev1,
          SseEvent.status "step-fetch"
            ("Fetching collection for " ++ username ++ "...")]
        match w.folders with
        | .error e =>
          (evs0 ++ [.errorMsg ("Could not access collection folders: " ++ e)],
           pending, gc.2, disk)
        | .ok nf =>
          if nf = 0 then
            (evs0 ++ [.errorMsg "Your Discogs collection appears to be empty."],
             pending, gc.2, disk)
          else
            match w.releases with
            | .error e =>
              (evs0 ++ [.errorMsg ("Could not access collection releases: " ++ e)],
               pending, gc.2, disk)
            | .ok items =>
              let fl := streamFetchLoop items 0 []
              let collection_data := fl.2
              if collection_data = [] then
                (evs0 ++ fl.1 ++ [.errorMsg "No albums found in your collection."],
                 pending, gc.2, disk)
              else if collection_data.length > MAX_COLLECTION_SIZE then
                (evs0 ++ fl.1 ++ [.errorMsg (oversizeMsg collection_data.length)],
                 pending, gc.2, disk)
              else
                let sc := set_cached_collection gc.2 disk now username collection_data
                streamFinish llm sess pending sc.1 sc.2
                  (evs0 ++ fl.1 ++
                   [.status "step-analyze" ("Analyzing "
                     ++ toString collection_data.length ++ " albums with AI...")])
                  collection_data

/-! ### The /results route (src/app.py lines 572-595) -/

/-- The page rendered by `/results`. -/
inductive ResultsPage where
  | render (analysis : AnalysisDict) (collection_size : Nat)
  | errorPage (message : String)
  | redirectIndex
deriving Repr, DecidableEq

/-- `results()` (src/app.py lines 572-595): pop the pending entry for the
session's Discogs token (or `anon`) and persist it into the session, else
fall back to the session; show an error page when no analysis exists, and
redirect when the analysis dict lacks the `growth_areas` key. Returns the
page plus the updated session and `pending_analysis` store. -/
def results (sess : SessionState) (pending : PendingMap) :
    ResultsPage × SessionState × PendingMap :=
  let sid := sess.discogs_token.getD "anon"
  match pending sid with
  | some p =>
    let pending1 : PendingMap := fun k => if k = sid then none else pending k
    let sess1 := { sess with analysis := some p.analysis,
                             collection_size := some p.collection_size }
    match p.analysis.growth_areas with
    | none => (.redirectIndex, sess1, pending1)
    | some _ => (.render p.analysis p.collection_size, sess1, pending1)
  | none =>
    match sess.analysis with
    | none =>
      (.errorPage "No analysis found. Please generate a report first.",
       sess, pending)
    | some analysis =>
      match analysis.growth_areas with
      | none => (.redirectIndex, sess, pending)
      | some _ => (.render analysis (sess.collection_size.getD 0), sess, pending)

/-! ### CSV collection source (modelled from the spec) -/

/-- Modelled from the spec: the CSV collection-source adapter and its
upload route are code of this repository missing from src/ — src/app.py is
one of the "three progressively-evolving versions of the same script" the
spec describes and contains only the Discogs adapter, while the home page
it renders offers "Discogs login or file upload" (docstring at src/app.py
line 281). Per the spec, an uploaded Discogs CSV export row carries the
album fields as strings. -/
structure CsvRow where
  artist : String
  title : String
  label : String
  released : String
  genre : String
  format : String

/-- Modelled from the spec: "CSV parser (local file)" — map one uploaded
row's fields into an AlbumRecord. -/
def album_of_csv_row (r : CsvRow) : Album :=
  { artist := r.artist, album := r.title, label := r.label,
    year := r.released, genre := r.genre, format := r.format }

/-- Modelled from the spec: the CSV upload route parses the uploaded
Discogs CSV export into the album records used for report generation. -/
def upload_csv_route (rows : List CsvRow) : List Album :=
  rows.map album_of_csv_row

/-- Modelled from the spec: the web layer's routes — "home page, OAuth
login/callback/logout, CSV upload, report generation (sync and streaming),
and results display". -/
inductive AppRoute where
  | home
  | login
  | callback
  | logout
  | uploadCsv
  | generateReport
  | generateReportStream
  | resultsDisplay
deriving Repr, DecidableEq

/-! ### Verification vocabulary and concrete example data -/

/-- Whether an event is an error event. -/
def isErrorEvt : SseEvent → Bool
  | .errorMsg _ => true
  | _ => false

/-- Every error event of the list sits at its last position. -/
def errorTerminal (evs : List SseEvent) : Prop :=
  ∀ i (h : i < evs.length), isErrorEvt (evs.get ⟨i, h⟩) = true → i + 1 = evs.length

/-- The empty cache map. -/
def emptyCache : CacheMap := fun _ => none

/-- The empty pending-analysis store. -/
def emptyPending : PendingMap := fun _ => none

/-- A session with no Discogs tokens. -/
def sessAnon : SessionState :=
  { discogs_token := none, discogs_token_secret := none
    analysis := none, collection_size := none }

/-- A session holding Discogs OAuth tokens. -/
def sessTok : SessionState :=
  { discogs_token := some "tok", discogs_token_secret := some "sec"
    analysis := none, collection_size := none }

/-- An LLM oracle that always returns the full sample JSON. -/
def llmOkEx : String → Except Exc LlmJson := fun _ => .ok jsonEx

/-- A Discogs world whose `client.identity()` call raises. -/
def worldIdErr : FetchWorld :=
  { identity := .error "boom", folders := .ok 0, releases := .ok [] }

/-- A Discogs world identifying user `u1` with one empty folder list. -/
def worldU1 : FetchWorld :=
  { identity := .ok "u1", folders := .ok 1, releases := .ok [] }

/-- An in-memory cache holding one album for user `u1`, stored at time 0. -/
def memOneAlbum : CacheMap :=
  fun k => if k = "u1" then some { data := [albumEx], timestamp := 0 } else none

/-- An in-memory cache holding 501 albums for user `u1`, stored at time 0. -/
def memBig : CacheMap :=
  fun k =>
    if k = "u1" then some { data := List.replicate 501 albumEx, timestamp := 0 }
    else none

/-- The analysis dict produced by `analyze_collection_with_llm` under
`llmOkEx`. -/
def analysisEx : AnalysisDict :=
  { vibe_summary := "Warm spiritual jazz with modal leanings"
    strengths := "Deep catalogue of classic Impulse! records"
    taste_recommendations := ["Karma - Pharoah Sanders"]
    growth_areas := some [{ title := "Dub foundations"
                            description := "Roots and dub would widen the low end"
                            recommendations := ["Super Ape - Lee Perry"] }] }

/-- A sample CSV export row. -/
def rowEx : CsvRow :=
  { artist := "Can", title := "Future Days", label := "United Artists"
    released := "1973", genre := "Krautrock", format := "LP" }

end VinylReporter

namespace VinylReporter

/-! ### Theorems for C1 and C7 -/

theorem get_cached_collection_spec (mem disk : CacheMap) (now : Int) (u : String)
    (d : List Album) :
    (get_cached_collection mem disk now u).1 = some d ↔
      ∃ t : Int, (mem u = some ⟨d, t⟩ ∨ (mem u = none ∧ disk u = some ⟨d, t⟩)) ∧
        now - t < COLLECTION_CACHE_TTL := by
  unfold get_cached_collection
  cases hm : mem u with
  | some e =>
    by_cases hf : now - e.timestamp < COLLECTION_CACHE_TTL
    · simp only [hm, if_pos hf]
      constructor
      · intro h
        cases Option.some.inj h
        exact ⟨e.timestamp, Or.inl rfl, hf⟩
      · rintro ⟨t, h1 | h2, ht⟩
        · cases Option.some.inj h1
          rfl
        · exact Option.noConfusion h2.1
    · simp only [hm, if_neg hf]
      constructor
      · intro h
        exact Option.noConfusion h
      · rintro ⟨t, h1 | h2, ht⟩
        · cases Option.some.inj h1
          exact absurd ht hf
        · exact Option.noConfusion h2.1
  | none =>
    cases hd : disk u with
    | some e =>
      by_cases hf : now - e.timestamp < COLLECTION_CACHE_TTL
      · simp only [hm, hd, if_pos hf]
        constructor
        · intro h
          cases Option.some.inj h
          exact ⟨e.timestamp, Or.inr ⟨trivial, rfl⟩, hf⟩
        · rintro ⟨t, h1 | h2, ht⟩
          · exact Option.noConfusion h1
          · cases Option.some.inj h2.2
            rfl
      · simp only [hm, hd, if_neg hf]
        constructor
        · intro h
          exact Option.noConfusion h
        · rintro ⟨t, h1 | h2, ht⟩
          · exact Option.noConfusion h1
          · cases Option.some.inj h2.2
            exact absurd ht hf
    | none =>
      simp only [hm, hd]
      constructor
      · intro h
        exact Option.noConfusion h
      · rintro ⟨t, h1 | h2, ht⟩
        · exact Option.noConfusion h1
        · exact Option.noConfusion h2.2

/-- C1: the collection cache is keyed by username, lives in memory plus the
on-disk JSON dict, and is TTL-based with a fixed TTL of 600 seconds:
`get_cached_collection u` returns `some d` iff an entry `⟨d, t⟩` for `u`
exists in the in-memory dict or, failing that, in the on-disk dict, and
`now - t < 600`; a lookup immediately after `set_cached_collection u data`
returns `some data`; and a lookup when every stored entry for `u` is at
least 600 seconds old returns `none`. -/
theorem c1_collection_cache_ttl (mem disk : CacheMap) (now : Int) (u : String)
    (d : List Album) :
    COLLECTION_CACHE_TTL = 600
    ∧ ((get_cached_collection mem disk now u).1 = some d ↔
        ∃ t : Int, (mem u = some ⟨d, t⟩ ∨ (mem u = none ∧ disk u = some ⟨d, t⟩)) ∧
          now - t < COLLECTION_CACHE_TTL)
    ∧ (∀ data : List Album,
        (get_cached_collection (set_cached_collection mem disk now u data).1
          (set_cached_collection mem disk now u data).2 now u).1 = some data)
    ∧ ((∀ e, mem u = some e → now - e.timestamp ≥ COLLECTION_CACHE_TTL) →
       (∀ e, disk u = some e → now - e.timestamp ≥ COLLECTION_CACHE_TTL) →
       (get_cached_collection mem disk now u).1 = none) := by
  refine ⟨rfl, get_cached_collection_spec mem disk now u d, ?_, ?_⟩
  · intro data
    have hm : (set_cached_collection mem disk now u data).1 u =
        some ⟨data, now⟩ := by
      unfold set_cached_collection CacheMap.set
      simp
    exact (get_cached_collection_spec _ _ now u data).2
      ⟨now, Or.inl hm, by unfold COLLECTION_CACHE_TTL; omega⟩
  · intro hmem hdisk
    cases hres : (get_cached_collection mem disk now u).1 with
    | none => rfl
    | some dstale =>
      rcases (get_cached_collection_spec mem disk now u dstale).1 hres with
        ⟨t, h1 | h2, ht⟩
      · have hold : now - t ≥ (600 : Int) := hmem _ h1
        have hfresh : now - t < (600 : Int) := ht
        omega
      · have hold : now - t ≥ (600 : Int) := hdisk _ h2.2
        have hfresh : now - t < (600 : Int) := ht
        omega

/-- Witness for C1: on concrete caches, a lookup right after storing returns
the stored data, and a lookup at time 600 of an entry stored at time 0
returns none. -/
theorem c1_collection_cache_ttl_witness :
    (get_cached_collection
        (set_cached_collection (fun _ => none) (fun _ => none) 0 "alice" [albumEx]).1
        (set_cached_collection (fun _ => none) (fun _ => none) 0 "alice" [albumEx]).2
        0 "alice").1 = some [albumEx]
    ∧ (get_cached_collection
        (fun k => if k = "alice" then some ⟨[albumEx], 0⟩ else none)
        (fun _ => none) 600 "alice").1 = none :=
  ⟨(c1_collection_cache_ttl (fun _ => none) (fun _ => none) 0 "alice" []).2.2.1 [albumEx],
   (c1_collection_cache_ttl (fun k => if k = "alice" then some ⟨[albumEx], 0⟩ else none)
      (fun _ => none) 600 "alice" []).2.2.2
     (by
       intro e he
       simp only [if_pos rfl] at he
       cases Option.some.inj he
       decide)
     (fun e he => Option.noConfusion he)⟩

/-- C7 (amended): every album record produced from a Discogs release has the
six string fields artist, album, label, year, genre, format, where artist
is the comma-joined artist names or "Unknown Artist" when none are present,
album is the release title, label is the comma-joined label names, year is
the stringified year when present and nonzero and empty when absent or
zero, genre is the comma-joined genres falling back to the comma-joined
styles when the joined genres string is empty, and format is the
comma-joined nonempty names of the dict-shaped formats entries. -/
theorem c7_album_record_fields (d : ReleaseData) :
    (d.artists ≠ [] → (albumOfRelease d).artist = commaJoin d.artists)
    ∧ (d.artists = [] → (albumOfRelease d).artist = "Unknown Artist")
    ∧ (albumOfRelease d).album = d.title
    ∧ (albumOfRelease d).label = commaJoin d.labels
    ∧ (∀ y, d.year = some y → y ≠ 0 → (albumOfRelease d).year = toString y)
    ∧ (d.year = none ∨ d.year = some 0 → (albumOfRelease d).year = "")
    ∧ (commaJoin d.genres ≠ "" → (albumOfRelease d).genre = commaJoin d.genres)
    ∧ (commaJoin d.genres = "" → (albumOfRelease d).genre = commaJoin d.styles)
    ∧ (albumOfRelease d).format =
        commaJoin ((d.formats.filterMap FormatEntry.nameOf).filter (· ≠ "")) := by
  unfold albumOfRelease
  refine ⟨?_, ?_, rfl, rfl, ?_, ?_, ?_, ?_, rfl⟩
  · intro h
    simp [h]
  · intro h
    simp [h]
  · intro y hy hy0
    simp [hy, hy0]
  · rintro (hy | hy) <;> simp [hy]
  · intro h
    simp [h]
  · intro h
    simp [h]

/-- Witness for C7: the field equations evaluated on a concrete release. -/
theorem c7_album_record_fields_witness :
    (albumOfRelease releaseEx).artist = "Miles Davis, Gil Evans"
    ∧ (albumOfRelease releaseEx).year = "1960"
    ∧ (albumOfRelease releaseEx).genre = "Jazz"
    ∧ (albumOfRelease releaseEx).format = "Vinyl" := by
  have h := c7_album_record_fields releaseEx
  refine ⟨?_, ?_, ?_, ?_⟩
  · rw [h.1 (by decide)]
    rfl
  · rw [h.2.2.2.2.1 1960 rfl (by decide)]
    rfl
  · rw [h.2.2.2.2.2.2.1 (by decide)]
    rfl
  · rw [h.2.2.2.2.2.2.2.2]
    rfl

/-- C7 counterexample: for a release whose year field is present but 0,
the produced record's year is the empty string, not the stringified year
"0" that the claim prescribes for a present year. -/
theorem c7_year_zero_counterexample :
    releaseYearZero.year = some 0
    ∧ (albumOfRelease releaseYearZero).year = ""
    ∧ (albumOfRelease releaseYearZero).year ≠ toString (0 : Nat) := by
  refine ⟨rfl, rfl, ?_⟩
  decide

/-- C2: `analyze_collection_with_llm` builds the overview and growth
prompts, issues the two calls through the two-worker pool, and merges the
parsed results: the concurrently-executed version equals the sequential
version (call on the overview prompt, then on the growth prompt, then
merge), and on success the `vibe_summary`, `strengths` and
`taste_recommendations` fields come from the overview call's JSON while
`growth_areas` comes from the growth call's JSON. -/
theorem c2_analysis_concurrent_merge (llm : String → Except Exc LlmJson)
    (collection_data : List Album) :
    analyze_collection_with_llm llm collection_data
      = analyze_sequential llm collection_data
    ∧ (∀ o g v s tr ga,
        llm (overview_prompt (_build_collection_text collection_data).1
          (_build_collection_text collection_data).2) = .ok o →
        llm (growth_prompt (_build_collection_text collection_data).1
          (_build_collection_text collection_data).2) = .ok g →
        o.vibe_summary = some v →
        o.strengths = some s →
        o.taste_recommendations = some tr →
        g.growth_areas = some ga →
        analyze_collection_with_llm llm collection_data =
          .ok { vibe_summary := v, strengths := s,
                taste_recommendations := tr, growth_areas := some ga }) := by
  constructor
  · rfl
  · intro o g v s tr ga ho hg hv hs htr hga
    unfold analyze_collection_with_llm
    simp [ho, hg, hv, hs, htr, hga, getKey, Except.bind, bind, pure, Except.pure]

/-- Witness for C2: the merge evaluated with a concrete oracle and
collection. -/
theorem c2_analysis_concurrent_merge_witness :
    analyze_collection_with_llm llmOkEx [albumEx] = .ok analysisEx :=
  (c2_analysis_concurrent_merge llmOkEx [albumEx]).2 jsonEx jsonEx
    "Warm spiritual jazz with modal leanings"
    "Deep catalogue of classic Impulse! records"
    ["Karma - Pharoah Sanders"]
    [{ title := "Dub foundations"
       description := "Roots and dub would widen the low end"
       recommendations := ["Super Ape - Lee Perry"] }]
    rfl rfl rfl rfl rfl rfl

/-- C9: every exception raised inside `fetch_collection_from_discogs` is
re-raised as a `ValueError` whose message begins
`Error fetching collection from Discogs: ` followed by the original
exception's string; and `/generate-report` returns a `ValueError` raised
during report generation as HTTP 400 with its message and any other
exception as HTTP 500 with an `Unexpected error:` message. -/
theorem c9_exception_relay (w : FetchWorld) (mem disk : CacheMap) (now : Int)
    (llm : String → Except Exc LlmJson) :
    (∀ e, fetch_collection_from_discogs w mem disk now = .error e →
       ∃ msg, e = .valueError ("Error fetching collection from Discogs: " ++ msg))
    ∧ (∀ m, report_exc_handler (.valueError m) = .errorResp 400 m)
    ∧ (∀ e, (∀ m, e ≠ .valueError m) →
        report_exc_handler e = .errorResp 500 ("Unexpected error: " ++ e.str))
    ∧ (∀ e, fetch_collection_from_discogs w mem disk now = .error e →
        generate_report true w llm mem disk now = report_exc_handler e)
    ∧ (∀ collection_data username caches e,
        fetch_collection_from_discogs w mem disk now
          = .ok ((collection_data, username), caches) →
        collection_data ≠ [] →
        ¬ collection_data.length > MAX_COLLECTION_SIZE →
        analyze_collection_with_llm llm collection_data = .error e →
        generate_report true w llm mem disk now = report_exc_handler e) := by
  refine ⟨?_, fun m => rfl, ?_, ?_, ?_⟩
  · intro e he
    unfold fetch_collection_from_discogs at he
    cases hb : fetch_body w mem disk now with
    | ok r => rw [hb] at he; exact Except.noConfusion he
    | error msg =>
      rw [hb] at he
      exact ⟨msg, (Except.error.inj he).symm⟩
  · intro e hne
    cases e with
    | valueError m => exact absurd rfl (hne m)
    | keyError k => rfl
    | other m => rfl
  · intro e he
    unfold generate_report
    simp [he]
  · intro collection_data username caches e hf hne hsize ha
    unfold generate_report
    simp [hf, hne, hsize, ha]

/-- Witness for C9: a failing identity call is relayed as a prefixed
`ValueError` and surfaces as HTTP 400 through `/generate-report`. -/
theorem c9_exception_relay_witness :
    report_exc_handler (.other "boom")
        = .errorResp 500 ("Unexpected error: " ++ "boom")
    ∧ generate_report true worldIdErr llmOkEx emptyCache emptyCache 0
        = report_exc_handler
            (.valueError ("Error fetching collection from Discogs: " ++ "boom")) :=
  ⟨(c9_exception_relay worldIdErr emptyCache emptyCache 0 llmOkEx).2.2.1
      (.other "boom") (fun _ h => Exc.noConfusion h),
   (c9_exception_relay worldIdErr emptyCache emptyCache 0 llmOkEx).2.2.2.1
      (.valueError ("Error fetching collection from Discogs: " ++ "boom")) rfl⟩

/-- C6 (amended): the release iteration of the Discogs adapter performs one
paginated API request per release item and never invokes a sleep delay;
rate limiting via sleep is not implemented. -/
theorem c6_fetch_loop_no_sleep (items : List (Option ReleaseData)) :
    (fetchLoopEffects items).length = items.length
    ∧ FetchEffect.sleep ∉ fetchLoopEffects items
    ∧ ∀ e ∈ fetchLoopEffects items, e = FetchEffect.apiRequest := by
  refine ⟨by simp [fetchLoopEffects], ?_, ?_⟩
  · intro hmem
    rcases List.mem_map.1 hmem with ⟨x, _, hx⟩
    exact FetchEffect.noConfusion hx
  · intro e he
    rcases List.mem_map.1 he with ⟨x, _, hx⟩
    exact hx.symm

/-- Witness for C6: the effect trace of a concrete one-item iteration. -/
theorem c6_fetch_loop_no_sleep_witness :
    (fetchLoopEffects [some releaseEx]).length = 1
    ∧ FetchEffect.sleep ∉ fetchLoopEffects [some releaseEx] :=
  ⟨(c6_fetch_loop_no_sleep [some releaseEx]).1,
   (c6_fetch_loop_no_sleep [some releaseEx]).2.1⟩

/-- C6 counterexample: a concrete iteration over two paginated release
items performs two successive API requests with no sleep delay between
them (or anywhere else in the loop). -/
theorem c6_no_sleep_counterexample :
    fetchLoopEffects [some releaseEx, some releaseEx]
        = [FetchEffect.apiRequest, FetchEffect.apiRequest]
    ∧ FetchEffect.sleep ∉ fetchLoopEffects [some releaseEx, some releaseEx] := by
  refine ⟨rfl, ?_⟩
  intro h
  simp [fetchLoopEffects] at h

/-- C5 (spec-modelled): some route of the application accepts an uploaded
Discogs CSV export as an alternative collection source to the OAuth login,
and the CSV parser maps each uploaded row's fields into an album record of
the shape consumed by report generation. -/
theorem c5_csv_upload_route (rows : List CsvRow) :
    (∃ route : AppRoute, route = AppRoute.uploadCsv)
    ∧ (upload_csv_route rows).length = rows.length
    ∧ ∀ i (h : i < rows.length),
        (upload_csv_route rows).get ⟨i, by simpa [upload_csv_route] using h⟩ =
          { artist := (rows.get ⟨i, h⟩).artist
            album := (rows.get ⟨i, h⟩).title
            label := (rows.get ⟨i, h⟩).label
            year := (rows.get ⟨i, h⟩).released
            genre := (rows.get ⟨i, h⟩).genre
            format := (rows.get ⟨i, h⟩).format } := by
  refine ⟨⟨AppRoute.uploadCsv, rfl⟩, by simp [upload_csv_route], ?_⟩
  intro i h
  simp [upload_csv_route, album_of_csv_row]

/-- Witness for C5: a concrete CSV row is parsed into the album record with
its fields. -/
theorem c5_csv_upload_route_witness :
    (upload_csv_route [rowEx]).get ⟨0, by simp [upload_csv_route]⟩ =
      { artist := "Can", album := "Future Days", label := "United Artists"
        year := "1973", genre := "Krautrock", format := "LP" } := by
  have h := (c5_csv_upload_route [rowEx]).2.2 0 (by decide)
  simpa using h

/-! ### Helper lemmas about the SSE event trace -/

theorem streamFetchLoop_status (items : List (Option ReleaseData)) :
    ∀ (n : Nat) (acc : List Album),
      ∀ e ∈ (streamFetchLoop items n acc).1, ∃ st m, e = SseEvent.status st m := by
  induction items with
  | nil =>
    intro n acc e he
    simp [streamFetchLoop] at he
  | cons x rest ih =>
    intro n acc e he
    cases x with
    | none => exact ih n acc e (by simpa [streamFetchLoop] using he)
    | some d =>
      simp only [streamFetchLoop] at he
      rcases List.mem_append.1 he with h | h
      · by_cases h10 : (n + 1) % 10 = 0
        · rw [if_pos h10] at h
          simp at h
          exact ⟨_, _, h⟩
        · rw [if_neg h10] at h
          simp at h
      · exact ih (n + 1) (acc ++ [albumOfRelease d]) e h

theorem errorTerminal_of_noError (evs : List SseEvent)
    (h : ∀ e ∈ evs, isErrorEvt e = false) : errorTerminal evs := by
  intro i hi hie
  have hmem := List.get_mem evs i hi
  rw [h _ hmem] at hie
  exact Bool.noConfusion hie

theorem errorTerminal_noError_append_error (evs : List SseEvent) (m : String)
    (h : ∀ e ∈ evs, isErrorEvt e = false) :
    errorTerminal (evs ++ [SseEvent.errorMsg m]) := by
  induction evs with
  | nil =>
    intro i hi _
    simp at hi ⊢
    omega
  | cons x rest ih =>
    rw [List.cons_append]
    intro i hi hie
    cases i with
    | zero =>
      rw [show ((x :: (rest ++ [SseEvent.errorMsg m])).get ⟨0, hi⟩) = x from rfl]
        at hie
      rw [h x (by simp)] at hie
      exact Bool.noConfusion hie
    | succ n =>
      have hn : n < (rest ++ [SseEvent.errorMsg m]).length := by
        simpa using hi
      have := ih (fun e he => h e (by simp [he])) n hn (by simpa using hie)
      simp at this ⊢
      omega

theorem errorTerminal_of_cons (x : SseEvent) (evs : List SseEvent)
    (h : errorTerminal (x :: evs)) : errorTerminal evs := by
  intro n hn hne
  have := h (n + 1) (by simpa using Nat.succ_lt_succ hn) (by simpa using hne)
  simp at this
  omega

theorem errorTerminal_countP (evs : List SseEvent) (h : errorTerminal evs) :
    evs.countP (fun e => isErrorEvt e) ≤ 1 := by
  induction evs with
  | nil => simp
  | cons x rest ih =>
    rw [List.countP_cons]
    by_cases hx : isErrorEvt x = true
    · have h0 := h 0 (by simp) (by simpa using hx)
      rw [List.length_cons] at h0
      have hrest : rest = [] := List.length_eq_zero.1 (by omega)
      subst hrest
      simp [hx]
    · have hrest := ih (errorTerminal_of_cons x rest h)
      simp at hx
      simp [hx]
      omega

theorem streamFinish_errorTerminal (llm : String → Except Exc LlmJson)
    (sess : SessionState) (pending : PendingMap) (mem disk : CacheMap)
    (evs : List SseEvent) (cd : List Album)
    (h : ∀ e ∈ evs, isErrorEvt e = false) :
    errorTerminal (streamFinish llm sess pending mem disk evs cd).1 := by
  unfold streamFinish
  cases ha : analyze_collection_with_llm llm cd with
  | error e => exact errorTerminal_noError_append_error evs _ h
  | ok a =>
    apply errorTerminal_of_noError
    intro e he
    rcases List.mem_append.1 he with h1 | h1
    · exact h e h1
    · simp at h1
      rcases h1 with rfl | rfl <;> rfl

theorem event_stream_errorTerminal (w : FetchWorld)
    (llm : String → Except Exc LlmJson) (sess : SessionState)
    (mem disk : CacheMap) (now : Int) (pending : PendingMap) :
    errorTerminal (event_stream w llm sess mem disk now pending).1 := by
  by_cases hauth : ¬ (sess.discogs_token.isSome ∧ sess.discogs_token_secret.isSome)
  · simp only [event_stream, if_pos hauth]
    apply errorTerminal_noError_append_error
    intro e he
    simp at he
    subst he
    rfl
  · cases hid : w.identity with
    | error e =>
      simp only [event_stream, if_neg hauth, hid]
      apply errorTerminal_noError_append_error
      intro e he
      simp at he
      subst he
      rfl
    | ok username =>
      cases hgc : (get_cached_collection mem disk now username).1 with
      | some collection_data =>
        by_cases hsize : collection_data.length > MAX_COLLECTION_SIZE
        · simp only [event_stream, if_neg hauth, hid, hgc, if_pos hsize]
          apply errorTerminal_noError_append_error
          intro e he
          simp at he
          subst he
          rfl
        · simp only [event_stream, if_neg hauth, hid, hgc, if_neg hsize]
          apply streamFinish_errorTerminal
          intro e he
          simp at he
          rcases he with rfl | rfl | rfl <;> rfl
      | none =>
        cases hf : w.folders with
        | error e =>
          simp only [event_stream, if_neg hauth, hid, hgc, hf]
          apply errorTerminal_noError_append_error
          intro e he
          simp at he
          rcases he with rfl | rfl <;> rfl
        | ok nf =>
          by_cases hnf : nf = 0
          · simp only [event_stream, if_neg hauth, hid, hgc, hf, if_pos hnf]
            apply errorTerminal_noError_append_error
            intro e he
            simp at he
            rcases he with rfl | rfl <;> rfl
          · cases hrel : w.releases with
            | error e =>
              simp only [event_stream, if_neg hauth, hid, hgc, hf, if_neg hnf, hrel]
              apply errorTerminal_noError_append_error
              intro e he
              simp at he
              rcases he with rfl | rfl <;> rfl
            | ok items =>
              have hfl : ∀ e ∈ (streamFetchLoop items 0 []).1, isErrorEvt e = false := by
                intro e he
                rcases streamFetchLoop_status items 0 [] e he with ⟨st, m, rfl⟩
                rfl
              have hpre : ∀ e ∈ [SseEvent.status "step-connect" "Connecting to Discogs...",
                  SseEvent.status "step-fetch" ("Fetching collection for " ++ username ++ "...")]
                  ++ (streamFetchLoop items 0 []).1, isErrorEvt e = false := by
                intro e he
                rcases List.mem_append.1 he with h1 | h1
                · simp at h1
                  rcases h1 with rfl | rfl <;> rfl
                · exact hfl e h1
              by_cases hempty : (streamFetchLoop items 0 []).2 = []
              · simp only [event_stream, if_neg hauth, hid, hgc, hf, if_neg hnf, hrel,
                  if_pos hempty]
                rw [List.append_assoc]
                exact errorTerminal_noError_append_error _ _ hpre
              · by_cases hsize : (streamFetchLoop items 0 []).2.length > MAX_COLLECTION_SIZE
                · simp only [event_stream, if_neg hauth, hid, hgc, hf, if_neg hnf, hrel,
                    if_neg hempty, if_pos hsize]
                  rw [List.append_assoc]
                  exact errorTerminal_noError_append_error _ _ hpre
                · simp only [event_stream, if_neg hauth, hid, hgc, hf, if_neg hnf, hrel,
                    if_neg hempty, if_neg hsize]
                  apply streamFinish_errorTerminal
                  intro e he
                  rw [List.append_assoc] at he
                  rcases List.mem_append.1 he with h1 | h1
                  · simp at h1
                    rcases h1 with rfl | rfl <;> rfl
                  · rcases List.mem_append.1 h1 with h2 | h2
                    · exact hfl e h2
                    · simp at h2
                      subst h2
                      rfl

/-- C10: in the SSE generator of `/generate-report-stream` an error event
is terminal: every error event yielded is the last event of the stream, a
single stream never contains two error events, and a complete event is
never yielded after an error event. -/
theorem c10_error_event_terminal (w : FetchWorld)
    (llm : String → Except Exc LlmJson) (sess : SessionState)
    (mem disk : CacheMap) (now : Int) (pending : PendingMap) :
    (∀ i (h : i < (event_stream w llm sess mem disk now pending).1.length),
       isErrorEvt ((event_stream w llm sess mem disk now pending).1.get ⟨i, h⟩) = true →
       i + 1 = (event_stream w llm sess mem disk now pending).1.length)
    ∧ (event_stream w llm sess mem disk now pending).1.countP
        (fun e => isErrorEvt e) ≤ 1
    ∧ (∀ i j (hi : i < (event_stream w llm sess mem disk now pending).1.length)
        (hj : j < (event_stream w llm sess mem disk now pending).1.length),
        i < j →
        isErrorEvt ((event_stream w llm sess mem disk now pending).1.get ⟨i, hi⟩) = true →
        (event_stream w llm sess mem disk now pending).1.get ⟨j, hj⟩ ≠ SseEvent.complete) := by
  have h := event_stream_errorTerminal w llm sess mem disk now pending
  refine ⟨h, errorTerminal_countP _ h, ?_⟩
  intro i j hi hj hij hie
  have hlen := h i hi hie
  exact fun _ => by omega

/-- Witness for C10: on a concrete unauthenticated stream the error event
sits at position 1 of a 2-event stream. -/
theorem c10_error_event_terminal_witness :
    1 + 1 = (event_stream worldIdErr llmOkEx sessAnon emptyCache emptyCache 0
      emptyPending).1.length :=
  (c10_error_event_terminal worldIdErr llmOkEx sessAnon emptyCache emptyCache 0
    emptyPending).1 1 (by decide) (by decide)

/-! ### Helper lemmas about SSE frame strings -/

theorem mem_data_append (c : Char) (s t : String) :
    c ∈ (s ++ t).data ↔ c ∈ s.data ∨ c ∈ t.data := by
  rw [show (s ++ t).data = s.data ++ t.data from rfl]
  exact List.mem_append

theorem noNL_append (s t : String) (hs : Char.ofNat 10 ∉ s.data)
    (ht : Char.ofNat 10 ∉ t.data) : Char.ofNat 10 ∉ (s ++ t).data := by
  rw [mem_data_append]
  rintro (h | h)
  · exact hs h
  · exact ht h

theorem hexDigit_ne_newline (n : Nat) : hexDigit n ≠ Char.ofNat 10 := by
  unfold hexDigit
  by_cases h1 : n < 10
  · rw [if_pos h1]
    interval_cases n <;> decide
  · rw [if_neg h1]
    by_cases h2 : n < 16
    · rw [if_pos h2]
      have h1a : 10 ≤ n := Nat.le_of_not_lt h1
      interval_cases n <;> decide
    · rw [if_neg h2]
      decide

theorem jsonEscapeChar_no_newline (c : Char) :
    Char.ofNat 10 ∉ (jsonEscapeChar c).data := by
  unfold jsonEscapeChar
  rcases eq_or_ne c '\\' with h1 | h1
  · rw [if_pos h1]; decide
  · rw [if_neg h1]
    rcases eq_or_ne c '"' with h2 | h2
    · rw [if_pos h2]; decide
    · rw [if_neg h2]
      rcases eq_or_ne c '\n' with h3 | h3
      · rw [if_pos h3]; decide
      · rw [if_neg h3]
        rcases eq_or_ne c '\r' with h4 | h4
        · rw [if_pos h4]; decide
        · rw [if_neg h4]
          rcases eq_or_ne c '\t' with h5 | h5
          · rw [if_pos h5]; decide
          · rw [if_neg h5]
            by_cases h6 : c.toNat < 32
            · rw [if_pos h6]
              intro hmem
              rw [mem_data_append, mem_data_append] at hmem
              rcases hmem with (hm | hm) | hm
              · exact absurd hm (by decide)
              · simp [String.singleton] at hm
                exact hexDigit_ne_newline _ hm.symm
              · simp [String.singleton] at hm
                exact hexDigit_ne_newline _ hm.symm
            · rw [if_neg h6]
              intro hmem
              simp [String.singleton] at hmem
              exact h3 (by rw [hmem])

theorem escapeChars_no_newline (cs : List Char) :
    Char.ofNat 10 ∉ (escapeChars cs).data := by
  induction cs with
  | nil => decide
  | cons c rest ih =>
    rw [show escapeChars (c :: rest) = jsonEscapeChar c ++ escapeChars rest from rfl]
    exact noNL_append _ _ (jsonEscapeChar_no_newline c) ih

theorem jsonString_no_newline (s : String) :
    Char.ofNat 10 ∉ (jsonString s).data := by
  unfold jsonString
  exact noNL_append _ _ (noNL_append _ _ (by decide) (escapeChars_no_newline _))
    (by decide)

theorem payload_no_newline (e : SseEvent) :
    Char.ofNat 10 ∉ (SseEvent.payload e).data := by
  cases e with
  | status step message =>
    show Char.ofNat 10 ∉ (jsonDumpsStatus step message).data
    unfold jsonDumpsStatus
    exact noNL_append _ _ (noNL_append _ _ (noNL_append _ _ (noNL_append _ _
      (noNL_append _ _ (noNL_append _ _ (noNL_append _ _ (noNL_append _ _
        (by decide) (jsonString_no_newline _)) (by decide))
        (jsonString_no_newline _)) (by decide)) (jsonString_no_newline _))
        (by decide)) (jsonString_no_newline _)) (by decide)
  | errorMsg message =>
    show Char.ofNat 10 ∉ (jsonDumpsError message).data
    unfold jsonDumpsError
    exact noNL_append _ _ (noNL_append _ _ (noNL_append _ _ (noNL_append _ _
      (by decide) (jsonString_no_newline _)) (by decide))
      (jsonString_no_newline _)) (by decide)
  | complete => decide

/-- C4 (amended): every SSE frame yielded by the `/generate-report-stream`
generator is framed as an `event: <name>` line followed by a `data: <json>`
line and a blank line, with a single-line payload; the event name is
`status` (carrying a step identifier and a message) for progress steps,
`error_msg` for failures, or `complete` for successful completion, and no
other event names occur. -/
theorem c4_sse_event_framing (w : FetchWorld)
    (llm : String → Except Exc LlmJson) (sess : SessionState)
    (mem disk : CacheMap) (now : Int) (pending : PendingMap) :
    ∀ e ∈ (event_stream w llm sess mem disk now pending).1,
      sseFrame e = "event: " ++ SseEvent.name e ++ "\ndata: "
          ++ SseEvent.payload e ++ "\n\n"
      ∧ SseEvent.name e ∈ (["status", "error_msg", "complete"] : List String)
      ∧ Char.ofNat 10 ∉ (SseEvent.payload e).data := by
  intro e _
  refine ⟨rfl, ?_, payload_no_newline e⟩
  cases e <;> simp [SseEvent.name]

/-- Witness for C4: the framing evaluated on the first event of a concrete
stream. -/
theorem c4_sse_event_framing_witness :
    sseFrame (SseEvent.status "step-connect" "Connecting to Discogs...")
        = "event: status\ndata: \x7b\"step\": \"step-connect\", \"message\": \"Connecting to Discogs...\"\x7d\n\n"
    ∧ SseEvent.name (SseEvent.status "step-connect" "Connecting to Discogs...")
        ∈ (["status", "error_msg", "complete"] : List String) := by
  have h := c4_sse_event_framing worldIdErr llmOkEx sessAnon emptyCache emptyCache
    0 emptyPending (SseEvent.status "step-connect" "Connecting to Discogs...")
    (by decide)
  exact ⟨h.1.trans (by rfl), h.2.1⟩

/-- C4 counterexample: the unauthenticated stream yields an event whose
name is `error_msg` — not among the claimed names status/error/complete —
and its frame reads `event: error_msg`. -/
theorem c4_error_msg_counterexample :
    (event_stream worldIdErr llmOkEx sessAnon emptyCache emptyCache 0
        emptyPending).1.map SseEvent.name = ["status", "error_msg"]
    ∧ "error_msg" ∉ (["status", "error", "complete"] : List String)
    ∧ sseFrame (SseEvent.errorMsg "Not authenticated with Discogs. Please log in again.")
        = "event: error_msg\ndata: \x7b\"message\": \"Not authenticated with Discogs. Please log in again.\"\x7d\n\n" := by
  refine ⟨rfl, by decide, rfl⟩

/-- C3: both report endpoints enforce the 500-album limit: for a fetched
collection of more than `MAX_COLLECTION_SIZE` albums, `/generate-report`
answers HTTP 400 and `/generate-report-stream` yields an error event — in
both cases without consulting the LLM oracle (the result is the same for
every oracle); consequently an analysis is only produced for collections
within the limit, and for such collections the truncation
`collection_data[:MAX_COLLECTION_SIZE]` drops nothing, `num_analyzed`
equals the collection's length, and every album's summary line appears in
the prompt text. -/
theorem c3_collection_size_limit (w : FetchWorld)
    (llm llm2 : String → Except Exc LlmJson) (sess : SessionState)
    (mem disk : CacheMap) (now : Int) (pending : PendingMap)
    (collection_data : List Album) (username : String)
    (caches : CacheMap × CacheMap) :
    (fetch_collection_from_discogs w mem disk now
        = .ok ((collection_data, username), caches) →
      collection_data.length > MAX_COLLECTION_SIZE →
      generate_report true w llm mem disk now
          = .errorResp 400 (oversizeMsg collection_data.length)
      ∧ generate_report true w llm mem disk now
          = generate_report true w llm2 mem disk now)
    ∧ (sess.discogs_token.isSome ∧ sess.discogs_token_secret.isSome →
      w.identity = .ok username →
      (get_cached_collection mem disk now username).1 = some collection_data →
      collection_data.length > MAX_COLLECTION_SIZE →
      (event_stream w llm sess mem disk now pending).1 =
        [SseEvent.status "step-connect" "Connecting to Discogs...",
         SseEvent.errorMsg (oversizeMsg collection_data.length)]
      ∧ (event_stream w llm sess mem disk now pending).1
          = (event_stream w llm2 sess mem disk now pending).1)
    ∧ (sess.discogs_token.isSome ∧ sess.discogs_token_secret.isSome →
      w.identity = .ok username →
      (get_cached_collection mem disk now username).1 = none →
      ∀ nf items, w.folders = .ok nf → nf ≠ 0 → w.releases = .ok items →
      (streamFetchLoop items 0 []).2.length > MAX_COLLECTION_SIZE →
      (event_stream w llm sess mem disk now pending).1 =
        [SseEvent.status "step-connect" "Connecting to Discogs...",
         SseEvent.status "step-fetch" ("Fetching collection for " ++ username ++ "...")]
        ++ (streamFetchLoop items 0 []).1
        ++ [SseEvent.errorMsg (oversizeMsg (streamFetchLoop items 0 []).2.length)])
    ∧ (∀ a n, generate_report true w llm mem disk now = .success a n →
        n ≤ MAX_COLLECTION_SIZE)
    ∧ (collection_data.length ≤ MAX_COLLECTION_SIZE →
        collection_data.take MAX_COLLECTION_SIZE = collection_data
        ∧ (_build_collection_text collection_data).2 = collection_data.length
        ∧ (_build_collection_text collection_data).1
            = String.intercalate "\n" (collection_data.map summaryLine)
        ∧ ∀ a ∈ collection_data,
            summaryLine a ∈ (collection_data.take MAX_COLLECTION_SIZE).map summaryLine) := by
  refine ⟨?_, ?_, ?_, ?_, ?_⟩
  · intro hf hlen
    have hne : collection_data ≠ [] := by
      intro h0
      rw [h0] at hlen
      simp [MAX_COLLECTION_SIZE] at hlen
    constructor
    · simp [generate_report, hf, hne, hlen]
    · simp [generate_report, hf, hne, hlen]
  · intro hauth hid hgc hlen
    constructor
    · simp only [event_stream, if_neg (not_not_intro hauth), hid, hgc, if_pos hlen]
      rfl
    · simp only [event_stream, if_neg (not_not_intro hauth), hid, hgc, if_pos hlen]
  · intro hauth hid hgc nf items hf hnf hrel hlen
    have hne : (streamFetchLoop items 0 []).2 ≠ [] := by
      intro h0
      rw [h0] at hlen
      simp [MAX_COLLECTION_SIZE] at hlen
    simp only [event_stream, if_neg (not_not_intro hauth), hid, hgc, hf,
      if_neg hnf, hrel, if_neg hne, if_pos hlen]
  · intro a n h
    unfold generate_report at h
    rw [if_neg (not_not_intro rfl)] at h
    split at h
    next e heq => cases e <;> simp [report_exc_handler] at h
    next cd un cs heq =>
      split at h
      next hne => exact absurd h (by simp)
      next hne =>
        split at h
        next hlen => exact absurd h (by simp)
        next hlen =>
          split at h
          next e heq2 => cases e <;> simp [report_exc_handler] at h
          next analysis heq2 =>
            injection h with h1 h2
            rw [← h2]
            exact Nat.le_of_not_lt hlen
  · intro hle
    refine ⟨List.take_of_length_le hle, ?_, ?_, ?_⟩
    · simp [_build_collection_text, List.take_of_length_le hle]
    · simp [_build_collection_text, List.take_of_length_le hle]
    · intro a ha
      rw [List.take_of_length_le hle]
      exact List.mem_map_of_mem summaryLine ha

/-- Witness for C3: a concrete cached collection of 501 albums makes
`/generate-report` answer HTTP 400, and a 1-album collection is rendered
whole. -/
theorem c3_collection_size_limit_witness :
    generate_report true worldU1 llmOkEx memBig emptyCache 0
        = .errorResp 400 (oversizeMsg (List.replicate 501 albumEx).length)
    ∧ ([albumEx].take MAX_COLLECTION_SIZE = [albumEx]
       ∧ (_build_collection_text [albumEx]).2 = [albumEx].length) := by
  have h1 := (c3_collection_size_limit worldU1 llmOkEx llmOkEx sessAnon memBig
    emptyCache 0 emptyPending (List.replicate 501 albumEx) "u1"
    (memBig, emptyCache)).1 rfl (by rw [List.length_replicate]; decide)
  have h2 := (c3_collection_size_limit worldU1 llmOkEx llmOkEx sessAnon memBig
    emptyCache 0 emptyPending [albumEx] "u1" (memBig, emptyCache)).2.2.2.2
    (by decide)
  exact ⟨h1.1, h2.1, h2.2.1⟩

/-- Every analysis dict produced by `analyze_collection_with_llm` carries
the `growth_areas` key. -/
theorem analyze_ok_growth_some (llm : String → Except Exc LlmJson)
    (d : List Album) (a : AnalysisDict)
    (h : analyze_collection_with_llm llm d = .ok a) :
    ∃ ga, a.growth_areas = some ga := by
  unfold analyze_collection_with_llm at h
  cases ho : llm (overview_prompt (_build_collection_text d).1
      (_build_collection_text d).2) with
  | error e => simp [ho, Except.bind, bind] at h
  | ok o =>
    cases hg : llm (growth_prompt (_build_collection_text d).1
        (_build_collection_text d).2) with
    | error e => simp [ho, hg, Except.bind, bind] at h
    | ok g =>
      cases hv : o.vibe_summary with
      | none => simp [ho, hg, hv, getKey, Except.bind, bind] at h
      | some v =>
        cases hs : o.strengths with
        | none => simp [ho, hg, hv, hs, getKey, Except.bind, bind] at h
        | some s =>
          cases htr : o.taste_recommendations with
          | none => simp [ho, hg, hv, hs, htr, getKey, Except.bind, bind] at h
          | some tr =>
            cases hga : g.growth_areas with
            | none => simp [ho, hg, hv, hs, htr, hga, getKey, Except.bind, bind] at h
            | some ga =>
              refine ⟨ga, ?_⟩
              simp [ho, hg, hv, hs, htr, hga, getKey, Except.bind, bind, pure,
                Except.pure] at h
              rw [← h]

/-- C8: when the SSE pipeline completes successfully, the analysis and
collection size are stored in the server-side `pending_analysis` store
keyed by the session's Discogs token; the next `/results` request for the
same session retrieves exactly that analysis and collection size, removes
the entry from the store, and persists both values into the session, so
that a page refresh (a second `/results`) still shows them. -/
theorem c8_side_channel_roundtrip (w : FetchWorld)
    (llm : String → Except Exc LlmJson) (sess : SessionState)
    (mem disk : CacheMap) (now : Int) (pending : PendingMap)
    (tok sec username : String) (data : List Album) (a : AnalysisDict)
    (htok : sess.discogs_token = some tok)
    (hsec : sess.discogs_token_secret = some sec)
    (hid : w.identity = .ok username)
    (hgc : (get_cached_collection mem disk now username).1 = some data)
    (hsize : ¬ data.length > MAX_COLLECTION_SIZE)
    (hllm : analyze_collection_with_llm llm data = .ok a) :
    ((event_stream w llm sess mem disk now pending).2.1) tok
        = some { analysis := a, collection_size := data.length }
    ∧ (results sess (event_stream w llm sess mem disk now pending).2.1).1
        = .render a data.length
    ∧ (results sess (event_stream w llm sess mem disk now pending).2.1).2.2 tok
        = none
    ∧ (results sess (event_stream w llm sess mem disk now pending).2.1).2.1.analysis
        = some a
    ∧ (results sess (event_stream w llm sess mem disk now pending).2.1).2.1.collection_size
        = some data.length
    ∧ (results (results sess (event_stream w llm sess mem disk now pending).2.1).2.1
        (results sess (event_stream w llm sess mem disk now pending).2.1).2.2).1
        = .render a data.length := by
  obtain ⟨ga, hga⟩ := analyze_ok_growth_some llm data a hllm
  have hauth : ¬¬(sess.discogs_token.isSome ∧ sess.discogs_token_secret.isSome) := by
    simp [htok, hsec]
  have hstream : (event_stream w llm sess mem disk now pending).2.1
      = fun k => if k = tok
          then some { analysis := a, collection_size := data.length }
          else pending k := by
    simp [event_stream, streamFinish, hid, hgc, if_neg hsize, hllm, htok, hsec]
  refine ⟨?_, ?_, ?_, ?_, ?_, ?_⟩
  · rw [hstream]
    simp
  · rw [hstream]
    unfold results
    simp [htok, hga]
  · rw [hstream]
    unfold results
    simp [htok, hga]
  · rw [hstream]
    unfold results
    simp [htok, hga]
  · rw [hstream]
    unfold results
    simp [htok, hga]
  · rw [hstream]
    unfold results
    simp [htok, hga]

/-- Witness for C8: the round trip evaluated on a concrete session, cache
and oracle. -/
theorem c8_side_channel_roundtrip_witness :
    ((event_stream worldU1 llmOkEx sessTok memOneAlbum emptyCache 0
        emptyPending).2.1) "tok"
      = some { analysis := analysisEx, collection_size := 1 }
    ∧ (results sessTok (event_stream worldU1 llmOkEx sessTok memOneAlbum
        emptyCache 0 emptyPending).2.1).1 = .render analysisEx 1 := by
  have h := c8_side_channel_roundtrip worldU1 llmOkEx sessTok memOneAlbum
    emptyCache 0 emptyPending "tok" "sec" "u1" [albumEx] analysisEx
    rfl rfl rfl rfl (by decide) rfl
  exact ⟨h.1, h.2.1⟩

end VinylReporter
